import Mathlib

/-!
Shallow embedding of the AlgoNim escrow contract
(`src/contracts/escrow.py`, PyTeal `approval_program`).

Addresses are modelled as natural numbers, with `0` standing for the
Algorand zero address (`Global.zero_address()`). Byte strings (the game
id) are modelled as lists of naturals. Timestamps and microAlgo amounts
are naturals; TEAL uint64 arithmetic panics (and hence rejects the whole
transaction) on overflow of `*` and underflow of `-`, which is modelled
by explicit bound checks in the guards of the payout operations.

Each operation handler mirrors one `on_...` `Seq` of the source: the
`Assert`s become the condition of an `if`, the `App.globalPut`s become a
record update, and each `InnerTxnBuilder` block becomes one element of
the returned outbound-payment list. A failed `Assert` (or an arithmetic
panic) rejects the whole application call, which on Algorand rolls back
every state change of the call, so a rejected operation is modelled as
`none`: no new state, no outbound transfer.
-/

/-- Status value `0` (waiting), from `STATUS_WAITING = Int(0)`. -/
def STATUS_WAITING : Nat := 0

/-- Status value `1` (active), from `STATUS_ACTIVE = Int(1)`. -/
def STATUS_ACTIVE : Nat := 1

/-- Status value `2` (complete), from `STATUS_COMPLETE = Int(2)`. -/
def STATUS_COMPLETE : Nat := 2

/-- `JOIN_TIMEOUT = Int(3600)`: one hour to find an opponent. -/
def JOIN_TIMEOUT : Nat := 3600

/-- `ABANDON_TIMEOUT = Int(259200)`: three days of inactivity. -/
def ABANDON_TIMEOUT : Nat := 259200

/-- The flat fee reserve `Int(1000)` subtracted from every payout. -/
def FEE_RESERVE : Nat := 1000

/-- One past the largest TEAL uint64; `*` and `-` panic outside `[0, U64)`. -/
def U64 : Nat := 2 ^ 64

/-- The Algorand zero address `Global.zero_address()`, modelled as `0`. -/
def zeroAddr : Nat := 0

/-- The `type_enum` of a payment transaction (`TxnType.Payment`). -/
def paymentTypeEnum : Nat := 1

/-- The global state of one escrow application: the eight keys
`player1, player2, wager, game_id, winner, status, created_at, last_move`. -/
structure GameRecord where
  player1 : Nat
  player2 : Nat
  wager : Nat
  gameId : List Nat
  winner : Nat
  status : Nat
  createdAt : Nat
  lastMove : Nat
deriving DecidableEq

/-- The paired transaction `Gtxn[1]` inspected by `on_join` and
`on_deposit`: its type enum, receiver and amount. -/
structure PayTxn where
  typeEnum : Nat
  receiver : Nat
  amount : Nat
deriving DecidableEq

/-- Environment data supplied per application call: `Txn.sender()`,
`Global.latest_timestamp()`, `Global.current_application_address()`,
`Global.creator_address()`, and the configured `GAME_SERVER` address. -/
structure Env where
  sender : Nat
  now : Nat
  appAddr : Nat
  creator : Nat
  gameServer : Nat
deriving DecidableEq

/-- One outbound inner payment (`InnerTxnBuilder` block): receiver and
amount, both with `fee: Int(0)`. -/
structure InnerPay where
  receiver : Nat
  amount : Nat
deriving DecidableEq

/-- `on_create`: stores the initial state and approves unconditionally.
`wagerArg` is `Btoi(Txn.application_args[0])`, `gameIdArg` is
`Txn.application_args[1]`. -/
def on_create (env : Env) (wagerArg : Nat) (gameIdArg : List Nat) :
    Option (GameRecord × List InnerPay) :=
  some ({ player1 := env.sender, player2 := zeroAddr, wager := wagerArg,
          gameId := gameIdArg, winner := zeroAddr, status := STATUS_WAITING,
          createdAt := env.now, lastMove := env.now }, [])

/-- `on_join`: requires status waiting, sender distinct from player1, an
empty player2 slot, and `Gtxn[1]` a payment of exactly `wager` to the
application address; sets player2, status active, and `last_move`. -/
def on_join (env : Env) (pay : PayTxn) (s : GameRecord) :
    Option (GameRecord × List InnerPay) :=
  if s.status = STATUS_WAITING ∧ env.sender ≠ s.player1 ∧ s.player2 = zeroAddr
      ∧ pay.typeEnum = paymentTypeEnum ∧ pay.receiver = env.appAddr
      ∧ pay.amount = s.wager then
    some ({ s with player2 := env.sender, status := STATUS_ACTIVE,
                   lastMove := env.now }, [])
  else none

/-- `on_deposit`: requires sender to be player1 and `Gtxn[1]` a payment
of exactly `wager` to the application address; changes no state. -/
def on_deposit (env : Env) (pay : PayTxn) (s : GameRecord) :
    Option (GameRecord × List InnerPay) :=
  if env.sender = s.player1 ∧ pay.typeEnum = paymentTypeEnum
      ∧ pay.receiver = env.appAddr ∧ pay.amount = s.wager then
    some (s, [])
  else none

/-- `on_declare_winner`: requires the sender to be the game server or the
creator, status active, and the declared winner (`application_args[1]`,
here `w`) to be one of the two players; sets winner and status complete. -/
def on_declare_winner (env : Env) (w : Nat) (s : GameRecord) :
    Option (GameRecord × List InnerPay) :=
  if (env.sender = env.gameServer ∨ env.sender = env.creator)
      ∧ s.status = STATUS_ACTIVE ∧ (w = s.player1 ∨ w = s.player2) then
    some ({ s with winner := w, status := STATUS_COMPLETE }, [])
  else none

/-- `on_claim`: requires status complete and the sender to be the stored
winner; emits one inner payment of `wager * 2 - 1000` to the sender and
leaves the record unchanged. The bounds `wager * 2 < U64` and
`1000 ≤ wager * 2` model the TEAL arithmetic panics in the amount
expression, which also reject the call. -/
def on_claim (env : Env) (s : GameRecord) :
    Option (GameRecord × List InnerPay) :=
  if s.status = STATUS_COMPLETE ∧ env.sender = s.winner
      ∧ s.wager * 2 < U64 ∧ FEE_RESERVE ≤ s.wager * 2 then
    some (s, [⟨env.sender, s.wager * 2 - FEE_RESERVE⟩])
  else none

/-- `on_cancel`: requires the sender to be player1, status waiting, and
the join timeout elapsed; emits one inner payment of `wager - 1000` to
player1 and leaves the record unchanged (the source sets no cancelled
status). The bounds `created_at + 3600 < U64` and `1000 ≤ wager` model
the TEAL arithmetic panics, which also reject the call. -/
def on_cancel (env : Env) (s : GameRecord) :
    Option (GameRecord × List InnerPay) :=
  if env.sender = s.player1 ∧ s.status = STATUS_WAITING
      ∧ s.createdAt + JOIN_TIMEOUT < U64
      ∧ env.now > s.createdAt + JOIN_TIMEOUT ∧ FEE_RESERVE ≤ s.wager then
    some (s, [⟨s.player1, s.wager - FEE_RESERVE⟩])
  else none

/-- `on_timeout_claim`: requires status active, the sender to be one of
the two players, and the abandon timeout elapsed since `last_move`; sets
winner to the sender, status complete, and emits one inner payment of
`wager * 2 - 1000` to the sender. The arithmetic bounds model the TEAL
panics, which also reject the call. -/
def on_timeout_claim (env : Env) (s : GameRecord) :
    Option (GameRecord × List InnerPay) :=
  if s.status = STATUS_ACTIVE
      ∧ (env.sender = s.player1 ∨ env.sender = s.player2)
      ∧ s.lastMove + ABANDON_TIMEOUT < U64
      ∧ env.now > s.lastMove + ABANDON_TIMEOUT
      ∧ s.wager * 2 < U64 ∧ FEE_RESERVE ≤ s.wager * 2 then
    some ({ s with winner := env.sender, status := STATUS_COMPLETE },
      [⟨env.sender, s.wager * 2 - FEE_RESERVE⟩])
  else none

/-- `on_update_move`: requires the sender to be the game server or the
creator and status active; sets `last_move` to the current timestamp. -/
def on_update_move (env : Env) (s : GameRecord) :
    Option (GameRecord × List InnerPay) :=
  if (env.sender = env.gameServer ∨ env.sender = env.creator)
      ∧ s.status = STATUS_ACTIVE then
    some ({ s with lastMove := env.now }, [])
  else none

/-- The seven application calls routed by the `Cond` at the end of
`approval_program` on an existing application (`create` is the bootstrap
branch `Txn.application_id() == Int(0)` and acts on no prior record, so
it is kept separate as `on_create`). -/
inductive Op where
  | join (pay : PayTxn)
  | deposit (pay : PayTxn)
  | declare_winner (w : Nat)
  | claim
  | cancel
  | timeout_claim
  | update_move
deriving DecidableEq

/-- The transition router: dispatch of a method call on an existing
record, mirroring the `Cond` branches keyed on `application_args[0]`. -/
def step (op : Op) (env : Env) (s : GameRecord) :
    Option (GameRecord × List InnerPay) :=
  match op with
  | .join pay => on_join env pay s
  | .deposit pay => on_deposit env pay s
  | .declare_winner w => on_declare_winner env w s
  | .claim => on_claim env s
  | .cancel => on_cancel env s
  | .timeout_claim => on_timeout_claim env s
  | .update_move => on_update_move env s

/-- The observable outcome of an application call: a rejected call
(failed `Assert` or arithmetic panic) leaves the stored record unchanged
and emits no inner transaction. -/
def applyStep (op : Op) (env : Env) (s : GameRecord) :
    GameRecord × List InnerPay :=
  match step op env s with
  | none => (s, [])
  | some r => r

/-- The conjunction of the precondition checks of each operation, as a
boolean: the `Assert`ed guards of the corresponding handler plus the
arithmetic-panic bounds of its payout expression. -/
def precondB (op : Op) (env : Env) (s : GameRecord) : Bool :=
  match op with
  | .join pay =>
      decide (s.status = STATUS_WAITING ∧ env.sender ≠ s.player1
        ∧ s.player2 = zeroAddr ∧ pay.typeEnum = paymentTypeEnum
        ∧ pay.receiver = env.appAddr ∧ pay.amount = s.wager)
  | .deposit pay =>
      decide (env.sender = s.player1 ∧ pay.typeEnum = paymentTypeEnum
        ∧ pay.receiver = env.appAddr ∧ pay.amount = s.wager)
  | .declare_winner w =>
      decide ((env.sender = env.gameServer ∨ env.sender = env.creator)
        ∧ s.status = STATUS_ACTIVE ∧ (w = s.player1 ∨ w = s.player2))
  | .claim =>
      decide (s.status = STATUS_COMPLETE ∧ env.sender = s.winner
        ∧ s.wager * 2 < U64 ∧ FEE_RESERVE ≤ s.wager * 2)
  | .cancel =>
      decide (env.sender = s.player1 ∧ s.status = STATUS_WAITING
        ∧ s.createdAt + JOIN_TIMEOUT < U64
        ∧ env.now > s.createdAt + JOIN_TIMEOUT ∧ FEE_RESERVE ≤ s.wager)
  | .timeout_claim =>
      decide (s.status = STATUS_ACTIVE
        ∧ (env.sender = s.player1 ∨ env.sender = s.player2)
        ∧ s.lastMove + ABANDON_TIMEOUT < U64
        ∧ env.now > s.lastMove + ABANDON_TIMEOUT
        ∧ s.wager * 2 < U64 ∧ FEE_RESERVE ≤ s.wager * 2)
  | .update_move =>
      decide ((env.sender = env.gameServer ∨ env.sender = env.creator)
        ∧ s.status = STATUS_ACTIVE)

/-! Concrete records and environments used as test inputs. -/

/-- A waiting record: player1 is `10`, wager `500000`, created at `0`. -/
def sWait : GameRecord :=
  { player1 := 10, player2 := 0, wager := 500000, gameId := [103, 49],
    winner := 0, status := 0, createdAt := 0, lastMove := 0 }

/-- An active record: players `10` and `20`, wager `500000`. -/
def sActive : GameRecord :=
  { player1 := 10, player2 := 20, wager := 500000, gameId := [103, 49],
    winner := 0, status := 1, createdAt := 0, lastMove := 5 }

/-- A complete record: winner `10`, wager `1000000`. -/
def sComplete : GameRecord :=
  { player1 := 10, player2 := 20, wager := 1000000, gameId := [103, 49],
    winner := 10, status := 2, createdAt := 0, lastMove := 5 }

/-- A call by the winner `10` of `sComplete`. -/
def envClaim : Env :=
  { sender := 10, now := 100, appAddr := 99, creator := 10, gameServer := 77 }

/-- A call by `20` at time `5`, joining `sWait`. -/
def envJoin : Env :=
  { sender := 20, now := 5, appAddr := 99, creator := 10, gameServer := 77 }

/-- The paired payment of exactly the wager of `sWait` to the
application address. -/
def payJoin : PayTxn := { typeEnum := 1, receiver := 99, amount := 500000 }

/-- A call by player1 `10` at time `3601`, one second past the join
timeout of `sWait`. -/
def envCancel : Env :=
  { sender := 10, now := 3601, appAddr := 99, creator := 10, gameServer := 77 }

/-- A call by `20` at time `3602`, attempting to join after a cancel. -/
def envJoinLate : Env :=
  { sender := 20, now := 3602, appAddr := 99, creator := 10, gameServer := 77 }

/-- C1: the claim states that after a successful claim any second claim
call is rejected and produces no second transfer. The code keeps status
`COMPLETE` and the winner unchanged after a successful claim, so the
identical second claim call succeeds again and emits a second inner
payment: on the complete record `sComplete` (wager `1000000`, winner
`10`), a claim by `10` pays `1999000`, leaves the record unchanged, and
a second claim on the resulting record pays `1999000` once more. -/
theorem C1_second_claim_pays_again :
    step Op.claim envClaim sComplete
      = some (sComplete, [⟨10, 1999000⟩])
    ∧ applyStep Op.claim envClaim sComplete
      = (sComplete, [⟨10, 1999000⟩])
    ∧ step Op.claim envClaim (applyStep Op.claim envClaim sComplete).1
      = some (sComplete, [⟨10, 1999000⟩]) := by
  refine ⟨by decide, by decide, by decide⟩

/-- C2: the claim states that a successful cancel moves the record into
a terminal cancelled state so that every subsequent join attempt and any
repeat cancel is rejected. The code's `on_cancel` emits the refund but
writes no state at all: status stays `WAITING`, so on `sWait` a cancel
by player1 at time `3601` succeeds (refund `499000`), the record is
unchanged, a subsequent join by `20` succeeds and activates the game,
and a repeat cancel also succeeds and refunds a second time. -/
theorem C2_cancel_leaves_record_reusable :
    step Op.cancel envCancel sWait = some (sWait, [⟨10, 499000⟩])
    ∧ (applyStep Op.cancel envCancel sWait).1.status = STATUS_WAITING
    ∧ step (Op.join payJoin) envJoinLate (applyStep Op.cancel envCancel sWait).1
      = some ({ sWait with player2 := 20, status := STATUS_ACTIVE,
                           lastMove := 3602 }, [])
    ∧ step Op.cancel envCancel (applyStep Op.cancel envCancel sWait).1
      = some (sWait, [⟨10, 499000⟩]) := by
  refine ⟨by decide, by decide, by decide, by decide⟩

/-- C3: the claim states that create rejects a non-positive wager and
never initializes the record for wager `0`. The code's `on_create`
performs no validation on `Btoi(application_args[0])`: a create call
with wager argument `0` is approved and initializes the record with
`wager = 0`. -/
theorem C3_create_accepts_zero_wager :
    on_create envJoin 0 [103, 49]
      = some ({ player1 := 20, player2 := 0, wager := 0, gameId := [103, 49],
                winner := 0, status := STATUS_WAITING, createdAt := 5,
                lastMove := 5 }, []) := by
  decide

/-! Destructuring lemmas: what a successful run of each handler implies.
These invert the `if` of the handler: success yields the asserted guard
together with the exact resulting record and outbound-payment list. -/

/-- A successful `on_join` implies its guard and its exact effects. -/
theorem on_join_some (env : Env) (pay : PayTxn) (s s' : GameRecord)
    (ts : List InnerPay) (h : on_join env pay s = some (s', ts)) :
    (s.status = STATUS_WAITING ∧ env.sender ≠ s.player1
      ∧ s.player2 = zeroAddr ∧ pay.typeEnum = paymentTypeEnum
      ∧ pay.receiver = env.appAddr ∧ pay.amount = s.wager)
    ∧ s' = { s with player2 := env.sender, status := STATUS_ACTIVE,
                    lastMove := env.now }
    ∧ ts = [] := by
  unfold on_join at h
  split at h
  · rename_i hc
    simp only [Option.some.injEq, Prod.mk.injEq] at h
    exact ⟨hc, h.1.symm, h.2.symm⟩
  · exact Option.noConfusion h

/-- A successful `on_deposit` implies its guard and changes nothing. -/
theorem on_deposit_some (env : Env) (pay : PayTxn) (s s' : GameRecord)
    (ts : List InnerPay) (h : on_deposit env pay s = some (s', ts)) :
    (env.sender = s.player1 ∧ pay.typeEnum = paymentTypeEnum
      ∧ pay.receiver = env.appAddr ∧ pay.amount = s.wager)
    ∧ s' = s ∧ ts = [] := by
  unfold on_deposit at h
  split at h
  · rename_i hc
    simp only [Option.some.injEq, Prod.mk.injEq] at h
    exact ⟨hc, h.1.symm, h.2.symm⟩
  · exact Option.noConfusion h

/-- A successful `on_declare_winner` implies its guard and its effects. -/
theorem on_declare_winner_some (env : Env) (w : Nat) (s s' : GameRecord)
    (ts : List InnerPay) (h : on_declare_winner env w s = some (s', ts)) :
    ((env.sender = env.gameServer ∨ env.sender = env.creator)
      ∧ s.status = STATUS_ACTIVE ∧ (w = s.player1 ∨ w = s.player2))
    ∧ s' = { s with winner := w, status := STATUS_COMPLETE } ∧ ts = [] := by
  unfold on_declare_winner at h
  split at h
  · rename_i hc
    simp only [Option.some.injEq, Prod.mk.injEq] at h
    exact ⟨hc, h.1.symm, h.2.symm⟩
  · exact Option.noConfusion h

/-- A successful `on_claim` implies its guard, leaves the record as it
was, and emits exactly one payment of `wager * 2 - 1000` to the sender. -/
theorem on_claim_some (env : Env) (s s' : GameRecord)
    (ts : List InnerPay) (h : on_claim env s = some (s', ts)) :
    (s.status = STATUS_COMPLETE ∧ env.sender = s.winner
      ∧ s.wager * 2 < U64 ∧ FEE_RESERVE ≤ s.wager * 2)
    ∧ s' = s ∧ ts = [⟨env.sender, s.wager * 2 - FEE_RESERVE⟩] := by
  unfold on_claim at h
  split at h
  · rename_i hc
    simp only [Option.some.injEq, Prod.mk.injEq] at h
    exact ⟨hc, h.1.symm, h.2.symm⟩
  · exact Option.noConfusion h

/-- A successful `on_cancel` implies its guard, leaves the record as it
was, and emits exactly one payment of `wager - 1000` to player1. -/
theorem on_cancel_some (env : Env) (s s' : GameRecord)
    (ts : List InnerPay) (h : on_cancel env s = some (s', ts)) :
    (env.sender = s.player1 ∧ s.status = STATUS_WAITING
      ∧ s.createdAt + JOIN_TIMEOUT < U64
      ∧ env.now > s.createdAt + JOIN_TIMEOUT ∧ FEE_RESERVE ≤ s.wager)
    ∧ s' = s ∧ ts = [⟨s.player1, s.wager - FEE_RESERVE⟩] := by
  unfold on_cancel at h
  split at h
  · rename_i hc
    simp only [Option.some.injEq, Prod.mk.injEq] at h
    exact ⟨hc, h.1.symm, h.2.symm⟩
  · exact Option.noConfusion h

/-- A successful `on_timeout_claim` implies its guard and its effects. -/
theorem on_timeout_claim_some (env : Env) (s s' : GameRecord)
    (ts : List InnerPay) (h : on_timeout_claim env s = some (s', ts)) :
    (s.status = STATUS_ACTIVE
      ∧ (env.sender = s.player1 ∨ env.sender = s.player2)
      ∧ s.lastMove + ABANDON_TIMEOUT < U64
      ∧ env.now > s.lastMove + ABANDON_TIMEOUT
      ∧ s.wager * 2 < U64 ∧ FEE_RESERVE ≤ s.wager * 2)
    ∧ s' = { s with winner := env.sender, status := STATUS_COMPLETE }
    ∧ ts = [⟨env.sender, s.wager * 2 - FEE_RESERVE⟩] := by
  unfold on_timeout_claim at h
  split at h
  · rename_i hc
    simp only [Option.some.injEq, Prod.mk.injEq] at h
    exact ⟨hc, h.1.symm, h.2.symm⟩
  · exact Option.noConfusion h

/-- A successful `on_update_move` implies its guard and its effects. -/
theorem on_update_move_some (env : Env) (s s' : GameRecord)
    (ts : List InnerPay) (h : on_update_move env s = some (s', ts)) :
    ((env.sender = env.gameServer ∨ env.sender = env.creator)
      ∧ s.status = STATUS_ACTIVE)
    ∧ s' = { s with lastMove := env.now } ∧ ts = [] := by
  unfold on_update_move at h
  split at h
  · rename_i hc
    simp only [Option.some.injEq, Prod.mk.injEq] at h
    exact ⟨hc, h.1.symm, h.2.symm⟩
  · exact Option.noConfusion h

/-! Additional concrete inputs used by witnesses. -/

/-- A call by the game server `77` at time `50`. -/
def envServer : Env :=
  { sender := 77, now := 50, appAddr := 99, creator := 10, gameServer := 77 }

/-- A call by player2 `20` at time `259206`, past the abandon timeout of
`sActive` (`lastMove = 5`). -/
def envTimeout : Env :=
  { sender := 20, now := 259206, appAddr := 99, creator := 10, gameServer := 77 }

/-- A call by player1 `10` at time `200`. -/
def envDeposit : Env :=
  { sender := 10, now := 200, appAddr := 99, creator := 10, gameServer := 77 }

/-- The paired payment of exactly the wager of `sComplete` to the
application address. -/
def payDeposit : PayTxn := { typeEnum := 1, receiver := 99, amount := 1000000 }

/-- The record `sWait` after a successful join by `20` at time `5`. -/
def sJoined : GameRecord :=
  { player1 := 10, player2 := 20, wager := 500000, gameId := [103, 49],
    winner := 0, status := 1, createdAt := 0, lastMove := 5 }

/-- The record `sActive` after a successful timeout_claim by `20`. -/
def sTimedOut : GameRecord :=
  { player1 := 10, player2 := 20, wager := 500000, gameId := [103, 49],
    winner := 20, status := 2, createdAt := 0, lastMove := 5 }

/-- C4: every operation is atomic: whenever any of the precondition
checks of an operation fails, the call is rejected (`step` returns
`none`), so the stored record is unchanged and no outbound transfer is
emitted. -/
theorem C4_reject_is_noop (op : Op) (env : Env) (s : GameRecord)
    (h : precondB op env s = false) :
    step op env s = none ∧ applyStep op env s = (s, []) := by
  have hnone : step op env s = none := by
    cases op <;>
      simp only [precondB, decide_eq_false_iff_not] at h <;>
      simp only [step, on_join, on_deposit, on_declare_winner, on_claim,
        on_cancel, on_timeout_claim, on_update_move, if_neg h]
  exact ⟨hnone, by simp only [applyStep, hnone]⟩

/-- Witness for C4: a claim call on the waiting record `sWait` by a
non-winner fails its precondition, is rejected, changes nothing and
emits nothing. -/
theorem C4_reject_is_noop_witness :
    precondB Op.claim envJoin sWait = false
    ∧ (step Op.claim envJoin sWait = none
        ∧ applyStep Op.claim envJoin sWait = (sWait, [])) :=
  ⟨by decide, C4_reject_is_noop Op.claim envJoin sWait (by decide)⟩

/-- C5: join succeeds if and only if status is waiting, the sender is
not player1, the player2 slot is empty, and the paired transaction is a
payment of exactly `wager` to the application address; on success
player2 becomes the sender, status becomes active, `last_move` becomes
the current time and no outbound transfer is emitted; a paired payment
of `wager + 1` or `wager - 1` is rejected. -/
theorem C5_join_spec (env : Env) (pay : PayTxn) (s : GameRecord) :
    ((∃ r, step (Op.join pay) env s = some r) ↔
      (s.status = STATUS_WAITING ∧ env.sender ≠ s.player1
        ∧ s.player2 = zeroAddr ∧ pay.typeEnum = paymentTypeEnum
        ∧ pay.receiver = env.appAddr ∧ pay.amount = s.wager))
    ∧ (∀ s' ts, step (Op.join pay) env s = some (s', ts) →
        s' = { s with player2 := env.sender, status := STATUS_ACTIVE,
                      lastMove := env.now } ∧ ts = [])
    ∧ ((pay.amount = s.wager + 1 ∨ pay.amount + 1 = s.wager) →
        step (Op.join pay) env s = none) := by
  refine ⟨⟨?_, ?_⟩, ?_, ?_⟩
  · intro hr
    obtain ⟨⟨s', ts⟩, hr⟩ := hr
    exact (on_join_some env pay s s' ts hr).1
  · intro hc
    exact ⟨({ s with player2 := env.sender, status := STATUS_ACTIVE,
                     lastMove := env.now }, []),
      by simp only [step, on_join, if_pos hc]⟩
  · intro s' ts hr
    exact (on_join_some env pay s s' ts hr).2
  · intro hpm
    show on_join env pay s = none
    unfold on_join
    rw [if_neg]
    intro hc
    obtain ⟨h1, h2, h3, h4, h5, h6⟩ := hc
    rcases hpm with hp | hp <;> omega

/-- Witness for C5: on the waiting record `sWait`, a join by `20` with a
paired payment of exactly the wager succeeds. -/
theorem C5_join_spec_witness :
    (sWait.status = STATUS_WAITING ∧ envJoin.sender ≠ sWait.player1
      ∧ sWait.player2 = zeroAddr ∧ payJoin.typeEnum = paymentTypeEnum
      ∧ payJoin.receiver = envJoin.appAddr ∧ payJoin.amount = sWait.wager)
    ∧ ∃ r, step (Op.join payJoin) envJoin sWait = some r :=
  ⟨by decide, (C5_join_spec envJoin payJoin sWait).1.mpr (by decide)⟩

/-- C6: declare_winner is rejected unless the sender is the game server
or the creator, status is active, and the declared winner is one of the
two players; on a valid call the winner becomes the declared identity,
status becomes complete, and no outbound transfer is emitted. -/
theorem C6_declare_winner_spec (env : Env) (w : Nat) (s : GameRecord) :
    ((∃ r, step (Op.declare_winner w) env s = some r) ↔
      ((env.sender = env.gameServer ∨ env.sender = env.creator)
        ∧ s.status = STATUS_ACTIVE ∧ (w = s.player1 ∨ w = s.player2)))
    ∧ (∀ s' ts, step (Op.declare_winner w) env s = some (s', ts) →
        s'.winner = w ∧ s'.status = STATUS_COMPLETE ∧ ts = []) := by
  refine ⟨⟨?_, ?_⟩, ?_⟩
  · intro hr
    obtain ⟨⟨s', ts⟩, hr⟩ := hr
    exact (on_declare_winner_some env w s s' ts hr).1
  · intro hc
    exact ⟨({ s with winner := w, status := STATUS_COMPLETE }, []),
      by simp only [step, on_declare_winner, if_pos hc]⟩
  · intro s' ts hr
    obtain ⟨_, hs, hts⟩ := on_declare_winner_some env w s s' ts hr
    subst hs
    exact ⟨rfl, rfl, hts⟩

/-- Witness for C6: on the active record `sActive`, the game server
declaring player1 `10` as winner succeeds. -/
theorem C6_declare_winner_spec_witness :
    ((envServer.sender = envServer.gameServer
        ∨ envServer.sender = envServer.creator)
      ∧ sActive.status = STATUS_ACTIVE
      ∧ (10 = sActive.player1 ∨ 10 = sActive.player2))
    ∧ ∃ r, step (Op.declare_winner 10) envServer sActive = some r :=
  ⟨by decide, (C6_declare_winner_spec envServer 10 sActive).1.mpr (by decide)⟩

/-- C7: every successful payout transfers exactly the integer formula
amount: claim and timeout_claim emit one payment of
`wager * 2 - 1000` to the sender (for claim, the stored winner), and
cancel emits one payment of `wager - 1000` to player1; in each case the
reserve does not exceed the pot, so truncated subtraction agrees with
the exact integer difference. -/
theorem C7_payout_amounts (env : Env) (s : GameRecord) :
    (∀ s' ts, step Op.claim env s = some (s', ts) →
        FEE_RESERVE ≤ s.wager * 2 ∧ env.sender = s.winner
        ∧ ts = [⟨env.sender, s.wager * 2 - FEE_RESERVE⟩])
    ∧ (∀ s' ts, step Op.timeout_claim env s = some (s', ts) →
        FEE_RESERVE ≤ s.wager * 2
        ∧ ts = [⟨env.sender, s.wager * 2 - FEE_RESERVE⟩])
    ∧ (∀ s' ts, step Op.cancel env s = some (s', ts) →
        FEE_RESERVE ≤ s.wager
        ∧ ts = [⟨s.player1, s.wager - FEE_RESERVE⟩]) := by
  refine ⟨?_, ?_, ?_⟩
  · intro s' ts hr
    obtain ⟨⟨_, hw, _, hres⟩, _, hts⟩ := on_claim_some env s s' ts hr
    exact ⟨hres, hw, hts⟩
  · intro s' ts hr
    obtain ⟨⟨_, _, _, _, _, hres⟩, _, hts⟩ :=
      on_timeout_claim_some env s s' ts hr
    exact ⟨hres, hts⟩
  · intro s' ts hr
    obtain ⟨⟨_, _, _, _, hres⟩, _, hts⟩ := on_cancel_some env s s' ts hr
    exact ⟨hres, hts⟩

/-- Witness for C7: the claim by the winner of `sComplete`
(wager `1000000`) pays exactly `1999000`. -/
theorem C7_payout_amounts_witness :
    step Op.claim envClaim sComplete = some (sComplete, [⟨10, 1999000⟩])
    ∧ (FEE_RESERVE ≤ sComplete.wager * 2
        ∧ envClaim.sender = sComplete.winner
        ∧ [(⟨10, 1999000⟩ : InnerPay)]
            = [⟨envClaim.sender, sComplete.wager * 2 - FEE_RESERVE⟩]) :=
  ⟨by decide,
    (C7_payout_amounts envClaim sComplete).1 sComplete
      [⟨10, 1999000⟩] (by decide)⟩

/-- C8: a successful timeout_claim implies status was active, the sender
is one of the two players, and the current time strictly exceeds
`last_move + 259200`; it sets the winner to the sender, status to
complete, and emits one payment of `wager * 2 - 1000` to the sender. A
successful update_move sets `last_move` to the current time, so a later
timeout_claim on the updated record requires a time strictly beyond the
update time plus the abandon timeout. -/
theorem C8_timeout_claim_spec (env : Env) (s : GameRecord) :
    (∀ s' ts, step Op.timeout_claim env s = some (s', ts) →
        s.status = STATUS_ACTIVE
        ∧ (env.sender = s.player1 ∨ env.sender = s.player2)
        ∧ env.now > s.lastMove + ABANDON_TIMEOUT
        ∧ s'.winner = env.sender ∧ s'.status = STATUS_COMPLETE
        ∧ ts = [⟨env.sender, s.wager * 2 - FEE_RESERVE⟩])
    ∧ (∀ s' ts, step Op.update_move env s = some (s', ts) →
        s'.lastMove = env.now
        ∧ ∀ env2 s2 ts2, step Op.timeout_claim env2 s' = some (s2, ts2) →
            env2.now > env.now + ABANDON_TIMEOUT) := by
  constructor
  · intro s' ts hr
    obtain ⟨⟨hst, hpl, _, htm, _, _⟩, hs, hts⟩ :=
      on_timeout_claim_some env s s' ts hr
    subst hs
    exact ⟨hst, hpl, htm, rfl, rfl, hts⟩
  · intro s' ts hr
    obtain ⟨_, hs, _⟩ := on_update_move_some env s s' ts hr
    subst hs
    refine ⟨rfl, ?_⟩
    intro env2 s2 ts2 hr2
    have h2 := (on_timeout_claim_some env2 _ s2 ts2 hr2).1
    exact h2.2.2.2.1

/-- Witness for C8: on the active record `sActive` (`last_move = 5`),
player2's timeout_claim at time `259206` succeeds with a payment of
`999000`. -/
theorem C8_timeout_claim_spec_witness :
    step Op.timeout_claim envTimeout sActive
      = some (sTimedOut, [⟨20, 999000⟩])
    ∧ (sActive.status = STATUS_ACTIVE
        ∧ (envTimeout.sender = sActive.player1
            ∨ envTimeout.sender = sActive.player2)
        ∧ envTimeout.now > sActive.lastMove + ABANDON_TIMEOUT
        ∧ sTimedOut.winner = envTimeout.sender
        ∧ sTimedOut.status = STATUS_COMPLETE
        ∧ [(⟨20, 999000⟩ : InnerPay)]
            = [⟨envTimeout.sender, sActive.wager * 2 - FEE_RESERVE⟩]) :=
  ⟨by decide,
    (C8_timeout_claim_spec envTimeout sActive).1
      sTimedOut [⟨20, 999000⟩] (by decide)⟩

/-- C9: every successful transition moves status only forward along
waiting → active → complete: it either keeps the status or advances it
by exactly one stage, so no operation moves backward and none skips from
waiting directly to complete. -/
theorem C9_status_forward (op : Op) (env : Env) (s s' : GameRecord)
    (ts : List InnerPay) (h : step op env s = some (s', ts)) :
    s'.status = s.status
    ∨ (s.status = STATUS_WAITING ∧ s'.status = STATUS_ACTIVE)
    ∨ (s.status = STATUS_ACTIVE ∧ s'.status = STATUS_COMPLETE) := by
  cases op with
  | join pay =>
      obtain ⟨⟨hst, _⟩, hs, _⟩ := on_join_some env pay s s' ts h
      subst hs
      exact Or.inr (Or.inl ⟨hst, rfl⟩)
  | deposit pay =>
      obtain ⟨_, hs, _⟩ := on_deposit_some env pay s s' ts h
      subst hs
      exact Or.inl rfl
  | declare_winner w =>
      obtain ⟨⟨_, hst, _⟩, hs, _⟩ := on_declare_winner_some env w s s' ts h
      subst hs
      exact Or.inr (Or.inr ⟨hst, rfl⟩)
  | claim =>
      obtain ⟨_, hs, _⟩ := on_claim_some env s s' ts h
      subst hs
      exact Or.inl rfl
  | cancel =>
      obtain ⟨_, hs, _⟩ := on_cancel_some env s s' ts h
      subst hs
      exact Or.inl rfl
  | timeout_claim =>
      obtain ⟨⟨hst, _⟩, hs, _⟩ := on_timeout_claim_some env s s' ts h
      subst hs
      exact Or.inr (Or.inr ⟨hst, rfl⟩)
  | update_move =>
      obtain ⟨_, hs, _⟩ := on_update_move_some env s s' ts h
      subst hs
      exact Or.inl rfl

/-- Witness for C9: the successful join of `sWait` advances status from
waiting to active. -/
theorem C9_status_forward_witness :
    step (Op.join payJoin) envJoin sWait = some (sJoined, [])
    ∧ (sJoined.status = sWait.status
        ∨ (sWait.status = STATUS_WAITING ∧ sJoined.status = STATUS_ACTIVE)
        ∨ (sWait.status = STATUS_ACTIVE
            ∧ sJoined.status = STATUS_COMPLETE)) :=
  ⟨by decide,
    C9_status_forward (Op.join payJoin) envJoin sWait sJoined [] (by decide)⟩

/-- C10: deposit succeeds if and only if the sender is player1 and the
paired transaction is a payment of exactly `wager` to the application
address — the guard mentions no status, so deposit is available in every
status — and a successful deposit leaves the whole record unchanged and
emits no outbound transfer. -/
theorem C10_deposit_spec (env : Env) (pay : PayTxn) (s : GameRecord) :
    ((∃ r, step (Op.deposit pay) env s = some r) ↔
      (env.sender = s.player1 ∧ pay.typeEnum = paymentTypeEnum
        ∧ pay.receiver = env.appAddr ∧ pay.amount = s.wager))
    ∧ (∀ s' ts, step (Op.deposit pay) env s = some (s', ts) →
        s' = s ∧ ts = []) := by
  refine ⟨⟨?_, ?_⟩, ?_⟩
  · intro hr
    obtain ⟨⟨s', ts⟩, hr⟩ := hr
    exact (on_deposit_some env pay s s' ts hr).1
  · intro hc
    exact ⟨(s, []), by simp only [step, on_deposit, if_pos hc]⟩
  · intro s' ts hr
    exact (on_deposit_some env pay s s' ts hr).2

/-- Witness for C10: a deposit by player1 on the complete record
`sComplete` succeeds even though status is complete. -/
theorem C10_deposit_spec_witness :
    (envDeposit.sender = sComplete.player1
      ∧ payDeposit.typeEnum = paymentTypeEnum
      ∧ payDeposit.receiver = envDeposit.appAddr
      ∧ payDeposit.amount = sComplete.wager)
    ∧ ∃ r, step (Op.deposit payDeposit) envDeposit sComplete = some r :=
  ⟨by decide,
    (C10_deposit_spec envDeposit payDeposit sComplete).1.mpr (by decide)⟩
